import Mathlib

/-!
Verification of the model-normalization pipeline of the AR Food Viewer
(src/app.js).  The pipeline reads an axis-aligned bounding box from the
renderer, computes an orientation correction making the tallest axis
vertical, and computes a uniform scale factor clamped to [0.01, 5.0].

Embedding conventions:
* Finite JavaScript numbers (IEEE doubles) are embedded as exact rationals
  (`ℚ`); every concrete value appearing in the source is exactly
  representable.
* The scale computation can divide by zero; for the non-negative inputs the
  pipeline handles, JavaScript yields `+Infinity` there, which we model in
  `ℝ≥0∞` (`ENNReal`), where `a / 0 = ∞` for `a ≠ 0`, exactly matching
  IEEE semantics on the non-negative values that occur.  `Math.cbrt` is
  `· ^ (1/3 : ℝ)` on `ℝ≥0∞` (`cbrt ∞ = ∞`, `cbrt 0 = 0`, real cube root
  on finite values — again matching IEEE on the reachable values).
* The renderer (model-viewer) is a black box: `getDimensions()` is the
  input (an `Option` of a box, `none` embedding `null`/`undefined`), and
  the output is the pair (orientation euler angles in degrees, uniform
  scale) that the code writes with `setAttribute`; `none` as output means
  the pipeline returned early without setting either attribute.
-/

namespace ARFood

/-- src/app.js line 69: `var TARGET_HEIGHT = 0.08; // meters`. -/
def TARGET_HEIGHT : ℚ := 8 / 100

/-- src/app.js line 70: `var TARGET_WIDTH = 0.08; // meters`. -/
def TARGET_WIDTH : ℚ := 8 / 100

/-- src/app.js line 73:
`var TARGET_VOLUME = TARGET_HEIGHT * TARGET_WIDTH * TARGET_HEIGHT;`. -/
def TARGET_VOLUME : ℚ := TARGET_HEIGHT * TARGET_WIDTH * TARGET_HEIGHT

/-- src/app.js line 270 lower clamp bound literal `0.01`. -/
def CLAMP_MIN : ℚ := 1 / 100

/-- src/app.js line 270 upper clamp bound literal `5.0`. -/
def CLAMP_MAX : ℚ := 5

/-- The `{x, y, z}` record returned by `modelViewer.getDimensions()`
(src/app.js line 171): the axis-aligned bounding-box size in meters. -/
structure Dimensions where
  x : ℚ
  y : ℚ
  z : ℚ
deriving DecidableEq

/-- src/app.js lines 286-288: `function rawZ_isTallest(w, h, d) { return d > h && d > w; }`. -/
def rawZ_isTallest (w h d : ℚ) : Bool :=
  decide (d > h) && decide (d > w)

/-- src/app.js lines 291-293: `function rawX_isTallest(w, h, d) { return w > h && w > d; }`. -/
def rawX_isTallest (w h d : ℚ) : Bool :=
  decide (w > h) && decide (w > d)

/-- src/app.js lines 204-225: the orientation-correction branch of
`normalizeModel`.  Returns the euler rotation `(orientX, orientY, orientZ)`
in degrees and the effective dimensions `(effectiveW, effectiveH,
effectiveD)` after axis relabeling. -/
def orient (w h d : ℚ) : (ℤ × ℤ × ℤ) × (ℚ × ℚ × ℚ) :=
  if rawZ_isTallest w h d then
    ((-90, 0, 0), (w, d, h))
  else if rawX_isTallest w h d then
    ((0, 0, 90), (h, w, d))
  else
    ((0, 0, 0), (w, h, d))

/-- Embedding of a finite non-negative JavaScript number into `ℝ≥0∞`.
All numbers reaching the scale computation are non-negative (bounding-box
sizes and positive constants), where this embedding is exact. -/
noncomputable def q2e (q : ℚ) : ENNReal :=
  ENNReal.ofReal (q : ℝ)

/-- Model of `Math.cbrt` (src/app.js line 262) on non-negative values,
including `cbrt(Infinity) = Infinity` and `cbrt(0) = 0`. -/
noncomputable def cbrt (v : ENNReal) : ENNReal :=
  v ^ ((1 : ℝ) / 3)

/-- src/app.js line 270:
`finalScale = Math.max(0.01, Math.min(finalScale, 5.0));`. -/
noncomputable def clampE (v : ENNReal) : ENNReal :=
  max (q2e CLAMP_MIN) (min v (q2e CLAMP_MAX))

/-- src/app.js line 236: `var scaleByHeight = TARGET_HEIGHT / effectiveH;`. -/
noncomputable def scaleByHeight (eh : ℚ) : ENNReal :=
  q2e TARGET_HEIGHT / q2e eh

/-- src/app.js line 241: `var scaleByWidth = TARGET_WIDTH / effectiveW;`. -/
noncomputable def scaleByWidth (ew : ℚ) : ENNReal :=
  q2e TARGET_WIDTH / q2e ew

/-- src/app.js lines 261-262:
`var currentVolume = effectiveW * effectiveH * effectiveD;`
`var scaleByVolume = Math.cbrt(TARGET_VOLUME / currentVolume);`. -/
noncomputable def scaleByVolume (ew eh ed : ℚ) : ENNReal :=
  cbrt (q2e TARGET_VOLUME / (q2e ew * q2e eh * q2e ed))

/-- src/app.js lines 236-270, generalized over the module-level constants
`TARGET_HEIGHT`, `TARGET_WIDTH`, `TARGET_VOLUME` (lines 69-73), which the
source reads as globals: the three candidate scales, their minimum
(line 267), and the safety clamp (line 270). -/
noncomputable def finalScaleWith (th tw tv : ℚ) (ew eh ed : ℚ) : ENNReal :=
  let sh := q2e th / q2e eh
  let sw := q2e tw / q2e ew
  let currentVolume := q2e ew * q2e eh * q2e ed
  let sv := cbrt (q2e tv / currentVolume)
  clampE (min sh (min sw sv))

/-- src/app.js lines 236-270 with the source's actual constants. -/
noncomputable def finalScale (ew eh ed : ℚ) : ENNReal :=
  finalScaleWith TARGET_HEIGHT TARGET_WIDTH TARGET_VOLUME ew eh ed

/-- src/app.js lines 166-283, generalized over the target constants.
Input: the result of `modelViewer.getDimensions()` (`none` embeds
`null`/`undefined`).  Output: `none` when the function returns early at
line 175 (normalization skipped, no attribute written); otherwise the
orientation euler triple (degrees) and the uniform scale that lines 228
and 280 write to the renderer.  The decimal formatting `toFixed(6)` of
line 279 is not modelled: it is a monotone rounding onto the 1e-6 grid,
of which both clamp bounds 0.01 and 5.0 are grid points, so it preserves
membership in the clamp interval. -/
noncomputable def normalizeModelWith (th tw tv : ℚ) (dims : Option Dimensions) :
    Option ((ℤ × ℤ × ℤ) × ENNReal) :=
  match dims with
  | none => none
  | some dim =>
    if dim.x = 0 ∧ dim.y = 0 ∧ dim.z = 0 then
      none
    else
      let o := orient dim.x dim.y dim.z
      some (o.1, finalScaleWith th tw tv o.2.1 o.2.2.1 o.2.2.2)

/-- src/app.js `normalizeModel` (lines 166-283) with the source's actual
constants. -/
noncomputable def normalizeModel (dims : Option Dimensions) : Option ((ℤ × ℤ × ℤ) × ENNReal) :=
  normalizeModelWith TARGET_HEIGHT TARGET_WIDTH TARGET_VOLUME dims

/-- Modelled from the spec (§4.2 step 4, for comparison with the code; the
code itself has no per-candidate flooring): "the clamp, which maps
non-positive or non-finite scale candidates to the floor of 0.01". -/
noncomputable def floorCandidate (v : ENNReal) : ENNReal :=
  if v = 0 ∨ v = ⊤ then q2e CLAMP_MIN else v

/-- Modelled from the spec (claim that per-candidate flooring precedes the
min): each of the three candidates is floored first, then the minimum is
taken. -/
noncomputable def perCandidateFlooredScale (ew eh ed : ℚ) : ENNReal :=
  min (floorCandidate (scaleByHeight eh))
    (min (floorCandidate (scaleByWidth ew)) (floorCandidate (scaleByVolume ew eh ed)))

lemma q2e_le_q2e {a b : ℚ} (hab : a ≤ b) : q2e a ≤ q2e b :=
  ENNReal.ofReal_le_ofReal (by exact_mod_cast hab)

lemma q2e_lt_q2e {a b : ℚ} (ha : 0 ≤ a) (hab : a < b) : q2e a < q2e b := by
  unfold q2e
  rw [ENNReal.ofReal_lt_ofReal_iff_of_nonneg (by exact_mod_cast ha)]
  exact_mod_cast hab

lemma q2e_zero : q2e 0 = 0 := by
  simp [q2e]

lemma q2e_pos {a : ℚ} (ha : 0 < a) : 0 < q2e a :=
  ENNReal.ofReal_pos.mpr (by exact_mod_cast ha)

lemma q2e_ne_top (a : ℚ) : q2e a ≠ ⊤ :=
  ENNReal.ofReal_ne_top

lemma q2e_mul {a b : ℚ} (ha : 0 ≤ a) : q2e (a * b) = q2e a * q2e b := by
  unfold q2e
  rw [show (((a * b : ℚ)) : ℝ) = (a : ℝ) * (b : ℝ) by push_cast; ring]
  exact ENNReal.ofReal_mul (by exact_mod_cast ha)

lemma q2e_div {a b : ℚ} (hb : 0 < b) : q2e a / q2e b = q2e (a / b) := by
  unfold q2e
  rw [show (((a / b : ℚ)) : ℝ) = (a : ℝ) / (b : ℝ) by push_cast; ring]
  exact (ENNReal.ofReal_div_of_pos (by exact_mod_cast hb)).symm

lemma clampE_mem (v : ENNReal) :
    q2e CLAMP_MIN ≤ clampE v ∧ clampE v ≤ q2e CLAMP_MAX := by
  refine ⟨le_max_left _ _, max_le (q2e_le_q2e ?_) (min_le_right _ _)⟩
  norm_num [CLAMP_MIN, CLAMP_MAX]

lemma finalScale_eq_clampE (ew eh ed : ℚ) :
    finalScale ew eh ed =
      clampE (min (scaleByHeight eh) (min (scaleByWidth ew) (scaleByVolume ew eh ed))) :=
  rfl

lemma normalizeModel_not_all_zero (w h d : ℚ) (hnz : ¬(w = 0 ∧ h = 0 ∧ d = 0)) :
    normalizeModel (some ⟨w, h, d⟩) =
      some ((orient w h d).1,
        finalScale (orient w h d).2.1 (orient w h d).2.2.1 (orient w h d).2.2.2) := by
  simp only [normalizeModel, normalizeModelWith, finalScale]
  rw [if_neg hnz]

lemma rawZ_isTallest_eq_true_iff (w h d : ℚ) :
    rawZ_isTallest w h d = true ↔ d > h ∧ d > w := by
  simp [rawZ_isTallest]

lemma rawX_isTallest_eq_true_iff (w h d : ℚ) :
    rawX_isTallest w h d = true ↔ w > h ∧ w > d := by
  simp [rawX_isTallest]

lemma orient_zTallest (w h d : ℚ) (h1 : d > h) (h2 : d > w) :
    orient w h d = ((-90, 0, 0), (w, d, h)) := by
  unfold orient
  rw [if_pos ((rawZ_isTallest_eq_true_iff w h d).mpr ⟨h1, h2⟩)]

lemma orient_xTallest (w h d : ℚ) (h1 : w > h) (h2 : w > d) :
    orient w h d = ((0, 0, 90), (h, w, d)) := by
  unfold orient
  rw [if_neg, if_pos ((rawX_isTallest_eq_true_iff w h d).mpr ⟨h1, h2⟩)]
  rw [rawZ_isTallest_eq_true_iff]
  rintro ⟨-, hdw⟩
  exact absurd h2 (not_lt.mpr hdw.le)

lemma orient_default (w h d : ℚ) (hz : ¬(d > h ∧ d > w)) (hx : ¬(w > h ∧ w > d)) :
    orient w h d = ((0, 0, 0), (w, h, d)) := by
  unfold orient
  rw [if_neg, if_neg]
  · rw [rawX_isTallest_eq_true_iff]; exact hx
  · rw [rawZ_isTallest_eq_true_iff]; exact hz

lemma orient_eff_cases (w h d : ℚ) :
    (orient w h d).2 = (w, d, h) ∨ (orient w h d).2 = (h, w, d) ∨
      (orient w h d).2 = (w, h, d) := by
  unfold orient
  split
  · exact Or.inl rfl
  split
  · exact Or.inr (Or.inl rfl)
  · exact Or.inr (Or.inr rfl)

lemma orient_eff_prod (w h d : ℚ) :
    (orient w h d).2.1 * (orient w h d).2.2.1 * (orient w h d).2.2.2 = w * h * d := by
  rcases orient_eff_cases w h d with hc | hc | hc <;> rw [hc] <;> ring

lemma orient_eff_nonneg (w h d : ℚ) (hw : 0 ≤ w) (hh : 0 ≤ h) (hd : 0 ≤ d) :
    0 ≤ (orient w h d).2.1 ∧ 0 ≤ (orient w h d).2.2.1 ∧ 0 ≤ (orient w h d).2.2.2 := by
  rcases orient_eff_cases w h d with hc | hc | hc <;> rw [hc] <;>
    exact ⟨by assumption, by assumption, by assumption⟩

/-- Claim C2: if depth is strictly greater than both height and width, the
orientation detector returns rotation `(-90, 0, 0)` and effective
dimensions `(width, depth, height)`; if width is strictly greater than both
height and depth, it returns `(0, 0, 90)` and effective dimensions
`(height, width, depth)`; the two strict-tallest branch conditions are
mutually exclusive, so exactly one of the three branches fires. -/
theorem orient_strict_tallest_branches (w h d : ℚ) :
    (d > h ∧ d > w → orient w h d = ((-90, 0, 0), (w, d, h))) ∧
    (w > h ∧ w > d → orient w h d = ((0, 0, 90), (h, w, d))) ∧
    ¬(rawZ_isTallest w h d = true ∧ rawX_isTallest w h d = true) := by
  refine ⟨fun hc => orient_zTallest w h d hc.1 hc.2,
    fun hc => orient_xTallest w h d hc.1 hc.2, ?_⟩
  rw [rawZ_isTallest_eq_true_iff, rawX_isTallest_eq_true_iff]
  rintro ⟨⟨-, hdw⟩, ⟨-, hwd⟩⟩
  exact absurd hwd (not_lt.mpr hdw.le)

/-- Verification of `orient_strict_tallest_branches` on concrete boxes:
depth-tallest `(1, 1, 2)` and width-tallest `(3, 1, 2)`. -/
theorem orient_strict_tallest_branches_witness :
    orient 1 1 2 = ((-90, 0, 0), (1, 2, 1)) ∧ orient 3 1 2 = ((0, 0, 90), (1, 3, 2)) :=
  ⟨(orient_strict_tallest_branches 1 1 2).1 (by decide),
   (orient_strict_tallest_branches 3 1 2).2.1 (by decide)⟩

/-- Claim C3: when no single axis is strictly greater than both others
(first conjunct: the weaker hypothesis that neither strict-tallest branch
condition holds, which also covers height strictly tallest), the detector
returns the zero rotation and effective dimensions equal to the raw ones;
in particular (second conjunct) any tie of two axes for the tallest never
selects a rotation; and (third conjunct) the depth-tallest test takes
precedence: whenever it passes, the result is the depth branch regardless
of the width-tallest test. -/
theorem orient_tie_no_rotation (w h d : ℚ) :
    (¬(d > h ∧ d > w) → ¬(w > h ∧ w > d) → orient w h d = ((0, 0, 0), (w, h, d))) ∧
    ((w = h ∧ d ≤ w) ∨ (h = d ∧ w ≤ h) ∨ (w = d ∧ h ≤ w) →
      orient w h d = ((0, 0, 0), (w, h, d))) ∧
    (rawZ_isTallest w h d = true → orient w h d = ((-90, 0, 0), (w, d, h))) := by
  refine ⟨orient_default w h d, fun htie => ?_, fun hzt => ?_⟩
  · rcases htie with ⟨he, hle⟩ | ⟨he, hle⟩ | ⟨he, hle⟩ <;>
      refine orient_default w h d ?_ ?_ <;> rintro ⟨h1, h2⟩ <;> linarith
  · obtain ⟨h1, h2⟩ := (rawZ_isTallest_eq_true_iff w h d).mp hzt
    exact orient_zTallest w h d h1 h2

/-- Verification of `orient_tie_no_rotation` on concrete boxes: height
weakly tallest `(1, 2, 1)` and a width-depth tie `(2, 1, 2)`. -/
theorem orient_tie_no_rotation_witness :
    orient 1 2 1 = ((0, 0, 0), (1, 2, 1)) ∧ orient 2 1 2 = ((0, 0, 0), (2, 1, 2)) :=
  ⟨(orient_tie_no_rotation 1 2 1).1 (by decide) (by decide),
   (orient_tie_no_rotation 2 1 2).2.1 (by decide)⟩

/-- Claim C10: in every branch of the orientation detector the effective
dimensions are a permutation of the raw dimensions (equal as multisets),
and consequently the bounding-box volume fed into the volume candidate is
invariant under the orientation correction. -/
theorem orient_effective_is_permutation (w h d : ℚ) :
    ({(orient w h d).2.1, (orient w h d).2.2.1, (orient w h d).2.2.2} : Multiset ℚ) =
      {w, h, d} ∧
    (orient w h d).2.1 * (orient w h d).2.2.1 * (orient w h d).2.2.2 = w * h * d := by
  refine ⟨?_, orient_eff_prod w h d⟩
  rcases orient_eff_cases w h d with hc | hc | hc <;> rw [hc]
  · exact congrArg (w ::ₘ ·) (Multiset.cons_swap d h {})
  · exact Multiset.cons_swap h w {d}

/-- Claim C6: for the all-zero bounding box the pipeline skips
normalization entirely — `normalizeModel` returns without producing an
orientation or a scale (modelled by the `none` outcome; in the source this
is the early `return` after `console.warn`, not an exception). -/
theorem normalizeModel_zero_box_skips :
    normalizeModel (some ⟨0, 0, 0⟩) = none := by
  simp [normalizeModel, normalizeModelWith]

/-- Claim C9: when `getDimensions()` yields no measurement (`null` or
`undefined`, modelled as `none`), `normalizeModel` skips normalization
exactly as in the all-zero case: it returns early with no orientation and
no scale applied. -/
theorem normalizeModel_null_skips :
    normalizeModel none = none ∧
      normalizeModel none = normalizeModel (some ⟨0, 0, 0⟩) := by
  constructor
  · rfl
  · simp [normalizeModel, normalizeModelWith]

/-- Claim C8: the target volume constant equals
`TARGET_HEIGHT * TARGET_WIDTH * TARGET_HEIGHT` (the height factor used
twice) and, with the default 0.08 m targets, its value is 0.000512 m³. -/
theorem target_volume_formula :
    TARGET_VOLUME = TARGET_HEIGHT * TARGET_WIDTH * TARGET_HEIGHT ∧
      TARGET_VOLUME = 512 / 1000000 := by
  constructor
  · rfl
  · norm_num [TARGET_VOLUME, TARGET_HEIGHT, TARGET_WIDTH]

/-- Claim C1: for every bounding box with non-negative components, at least
one of them non-zero, `normalizeModel` produces a scale (applied to the
renderer) lying in the closed interval `[0.01, 5.0]` — including boxes
with one or two zero components, where division yields non-finite
intermediate candidates. -/
theorem normalizeModel_scale_in_clamp_range (w h d : ℚ)
    (hw : 0 ≤ w) (hh : 0 ≤ h) (hd : 0 ≤ d) (hnz : ¬(w = 0 ∧ h = 0 ∧ d = 0)) :
    ∃ rot s, normalizeModel (some ⟨w, h, d⟩) = some (rot, s) ∧
      q2e CLAMP_MIN ≤ s ∧ s ≤ q2e CLAMP_MAX := by
  refine ⟨(orient w h d).1,
    finalScale (orient w h d).2.1 (orient w h d).2.2.1 (orient w h d).2.2.2,
    normalizeModel_not_all_zero w h d hnz, ?_, ?_⟩
  · rw [finalScale_eq_clampE]
    exact (clampE_mem _).1
  · rw [finalScale_eq_clampE]
    exact (clampE_mem _).2

/-- Verification of `normalizeModel_scale_in_clamp_range` on the concrete
box with two zero dimensions `(0, 0, 1)`. -/
theorem normalizeModel_scale_in_clamp_range_witness :
    ∃ rot s, normalizeModel (some ⟨0, 0, 1⟩) = some (rot, s) ∧
      q2e CLAMP_MIN ≤ s ∧ s ≤ q2e CLAMP_MAX :=
  normalizeModel_scale_in_clamp_range 0 0 1 (by decide) (by decide) (by decide) (by decide)

/-- Claim C4: for effective dimensions with all three components non-zero
(and non-negative, as bounding-box sizes are), the final scale is the
clamp to `[0.01, 5.0]` of the minimum of the three candidates
`scaleByHeight`, `scaleByWidth` and `scaleByVolume`: there is a value `m`
that is one of the three candidates, is below or equal to each of them,
and whose clamp is the final scale. -/
theorem finalScale_is_clamped_min_of_candidates (ew eh ed : ℚ)
    (hw : 0 ≤ ew) (hh : 0 ≤ eh) (hd : 0 ≤ ed)
    (hw0 : ew ≠ 0) (hh0 : eh ≠ 0) (hd0 : ed ≠ 0) :
    ∃ m, (m = scaleByHeight eh ∨ m = scaleByWidth ew ∨ m = scaleByVolume ew eh ed) ∧
      m ≤ scaleByHeight eh ∧ m ≤ scaleByWidth ew ∧ m ≤ scaleByVolume ew eh ed ∧
      finalScale ew eh ed = clampE m := by
  refine ⟨min (scaleByHeight eh) (min (scaleByWidth ew) (scaleByVolume ew eh ed)),
    ?_, min_le_left _ _, le_trans (min_le_right _ _) (min_le_left _ _),
    le_trans (min_le_right _ _) (min_le_right _ _), finalScale_eq_clampE ew eh ed⟩
  rcases min_choice (scaleByHeight eh) (min (scaleByWidth ew) (scaleByVolume ew eh ed)) with
    h1 | h1
  · exact Or.inl h1
  · rcases min_choice (scaleByWidth ew) (scaleByVolume ew eh ed) with h2 | h2
    · exact Or.inr (Or.inl (h1.trans h2))
    · exact Or.inr (Or.inr (h1.trans h2))

/-- Verification of `finalScale_is_clamped_min_of_candidates` on the
concrete effective dimensions `(1, 2, 3)`. -/
theorem finalScale_is_clamped_min_of_candidates_witness :
    ∃ m, (m = scaleByHeight 2 ∨ m = scaleByWidth 1 ∨ m = scaleByVolume 1 2 3) ∧
      m ≤ scaleByHeight 2 ∧ m ≤ scaleByWidth 1 ∧ m ≤ scaleByVolume 1 2 3 ∧
      finalScale 1 2 3 = clampE m :=
  finalScale_is_clamped_min_of_candidates 1 2 3 (by decide) (by decide) (by decide)
    (by decide) (by decide) (by decide)

lemma floorCandidate_top : floorCandidate ⊤ = q2e CLAMP_MIN := by
  unfold floorCandidate
  rw [if_pos (Or.inr rfl)]

lemma floorCandidate_of_pos_finite {a : ℚ} (ha : 0 < a) : floorCandidate (q2e a) = q2e a := by
  unfold floorCandidate
  rw [if_neg]
  rintro (h0 | ht)
  · exact (q2e_pos ha).ne' h0
  · exact q2e_ne_top a ht

lemma clampE_of_between {a : ℚ} (h1 : CLAMP_MIN ≤ a) (h2 : a ≤ CLAMP_MAX) :
    clampE (q2e a) = q2e a := by
  unfold clampE
  rw [min_eq_left (q2e_le_q2e h2), max_eq_right (q2e_le_q2e h1)]

/-- Claim C5 is refuted at the bounding box `(0.04, 0, 0.02)` (height
zero): the code takes the minimum of the candidates first and clamps only
the result, giving the scale 2 (the finite height candidate; the two
infinite candidates lose the minimum), whereas flooring each non-finite
candidate to 0.01 before the minimum — what the claim states — yields
0.01.  The two disagree. -/
theorem per_candidate_flooring_refuted :
    normalizeModel (some ⟨1/25, 0, 1/50⟩) = some ((0, 0, 90), q2e 2) ∧
    perCandidateFlooredScale 0 (1/25) (1/50) = q2e CLAMP_MIN ∧
    clampE (perCandidateFlooredScale 0 (1/25) (1/50)) = q2e CLAMP_MIN ∧
    q2e 2 ≠ q2e CLAMP_MIN := by
  have h_orient : orient (1/25) 0 (1/50) = ((0, 0, 90), (0, 1/25, 1/50)) :=
    orient_xTallest _ _ _ (by norm_num) (by norm_num)
  have h_sh : scaleByHeight (1/25) = q2e 2 := by
    unfold scaleByHeight
    rw [q2e_div (by norm_num)]
    norm_num [TARGET_HEIGHT]
  have h_sw : scaleByWidth 0 = ⊤ := by
    unfold scaleByWidth
    rw [q2e_zero]
    exact ENNReal.div_zero (q2e_pos (by norm_num [TARGET_WIDTH])).ne'
  have h_sv : scaleByVolume 0 (1/25) (1/50) = ⊤ := by
    unfold scaleByVolume cbrt
    rw [q2e_zero, zero_mul, zero_mul,
      ENNReal.div_zero (q2e_pos (by norm_num [TARGET_VOLUME, TARGET_HEIGHT, TARGET_WIDTH])).ne']
    exact ENNReal.top_rpow_of_pos (by norm_num)
  have h_ne : q2e 2 ≠ q2e CLAMP_MIN :=
    (q2e_lt_q2e (by norm_num [CLAMP_MIN]) (by norm_num [CLAMP_MIN])).ne'
  have h_pc : perCandidateFlooredScale 0 (1/25) (1/50) = q2e CLAMP_MIN := by
    unfold perCandidateFlooredScale
    rw [h_sh, h_sw, h_sv, floorCandidate_top, floorCandidate_of_pos_finite (by norm_num),
      min_self]
    exact min_eq_right (q2e_le_q2e (by norm_num [CLAMP_MIN]))
  refine ⟨?_, h_pc, ?_, h_ne⟩
  · rw [normalizeModel_not_all_zero _ _ _ (by norm_num), h_orient]
    have h_fs : finalScale 0 (1/25) (1/50) = q2e 2 := by
      rw [finalScale_eq_clampE, h_sh, h_sw, h_sv, min_self, min_eq_left le_top]
      exact clampE_of_between (by norm_num [CLAMP_MIN]) (by norm_num [CLAMP_MAX])
    exact congrArg some (congrArg _ h_fs)
  · rw [h_pc]
    exact clampE_of_between le_rfl (by norm_num [CLAMP_MIN, CLAMP_MAX])

/-- Claim C5 amended: when one or two raw dimensions are zero (but not all
three), the code does NOT floor the non-finite candidates before the
minimum; the division-by-zero candidates become `∞` (in particular the
volume candidate is always `∞` there), the minimum of the three candidates
is taken with those `∞` values participating — so they never win against a
finite candidate — and the single clamp to `[0.01, 5.0]` is applied only to
that minimum. -/
theorem scale_zero_dim_clamped_after_min (w h d : ℚ)
    (hw : 0 ≤ w) (hh : 0 ≤ h) (hd : 0 ≤ d)
    (hzero : w = 0 ∨ h = 0 ∨ d = 0) (hnz : ¬(w = 0 ∧ h = 0 ∧ d = 0)) :
    scaleByVolume (orient w h d).2.1 (orient w h d).2.2.1 (orient w h d).2.2.2 = ⊤ ∧
    normalizeModel (some ⟨w, h, d⟩) =
      some ((orient w h d).1,
        clampE (min (scaleByHeight (orient w h d).2.2.1)
          (scaleByWidth (orient w h d).2.1))) := by
  obtain ⟨hew, heh, hed⟩ := orient_eff_nonneg w h d hw hh hd
  have hprod : (orient w h d).2.1 * (orient w h d).2.2.1 * (orient w h d).2.2.2 = 0 := by
    rw [orient_eff_prod]
    rcases hzero with hz | hz | hz <;> rw [hz] <;> ring
  have hvol : q2e (orient w h d).2.1 * q2e (orient w h d).2.2.1 *
      q2e (orient w h d).2.2.2 = 0 := by
    rw [← q2e_mul hew, ← q2e_mul (mul_nonneg hew heh), hprod, q2e_zero]
  have hsv : scaleByVolume (orient w h d).2.1 (orient w h d).2.2.1
      (orient w h d).2.2.2 = ⊤ := by
    unfold scaleByVolume cbrt
    rw [hvol,
      ENNReal.div_zero (q2e_pos (by norm_num [TARGET_VOLUME, TARGET_HEIGHT, TARGET_WIDTH])).ne']
    exact ENNReal.top_rpow_of_pos (by norm_num)
  refine ⟨hsv, ?_⟩
  rw [normalizeModel_not_all_zero w h d hnz, finalScale_eq_clampE, hsv,
    min_eq_left le_top]

/-- Verification of `scale_zero_dim_clamped_after_min` on the concrete box
`(0, 1, 1)` (width zero). -/
theorem scale_zero_dim_clamped_after_min_witness :
    scaleByVolume (orient 0 1 1).2.1 (orient 0 1 1).2.2.1 (orient 0 1 1).2.2.2 = ⊤ ∧
    normalizeModel (some ⟨0, 1, 1⟩) =
      some ((orient 0 1 1).1,
        clampE (min (scaleByHeight (orient 0 1 1).2.2.1)
          (scaleByWidth (orient 0 1 1).2.1))) :=
  scale_zero_dim_clamped_after_min 0 1 1 (by decide) (by decide) (by decide)
    (Or.inl rfl) (by decide)

/-- Claim C7 is refuted: the code contains no validation of the target
constants, so an invalid target spec (here a non-positive target height 0,
with the volume derived from it as on line 73) is not rejected — the
pipeline still processes the asset `(1, 1, 1)` and produces an output
instead of failing before asset processing. -/
theorem invalid_target_spec_not_rejected :
    ¬(0 < (0 : ℚ)) ∧
      normalizeModelWith 0 TARGET_WIDTH (0 * TARGET_WIDTH * 0) (some ⟨1, 1, 1⟩) ≠ none := by
  constructor
  · norm_num
  · simp [normalizeModelWith]

/-- Claim C7 amended: no configuration-time validation exists in the code;
instead the target spec is hardcoded as constants that do satisfy the
validity conditions the spec demands (positive targets and volume, positive
clamp bounds, bounds not inverted), so an invalid target spec never arises
in the shipped configuration. -/
theorem target_spec_constants_valid :
    0 < TARGET_HEIGHT ∧ 0 < TARGET_WIDTH ∧ 0 < TARGET_VOLUME ∧
      0 < CLAMP_MIN ∧ 0 < CLAMP_MAX ∧ CLAMP_MIN < CLAMP_MAX := by
  refine ⟨?_, ?_, ?_, ?_, ?_, ?_⟩ <;>
    norm_num [TARGET_HEIGHT, TARGET_WIDTH, TARGET_VOLUME, CLAMP_MIN, CLAMP_MAX]

end ARFood
